import Mathlib

/-!
Verification of the Displate custom image processor's crop-geometry logic.

The server (`server.js`, POST /process-image handler) computes, from the
decoded image's integer dimensions and an optional normalized focal point:
an orientation flag, fixed target output dimensions, crop dimensions
preserving a 1:1.4 ratio, and a clamped crop offset.  JavaScript numbers
are modelled by exact rationals: the literal `1.4` is `7/5 : ℚ` and
`Math.round` is round-half-up `⌊x + 1/2⌋` (its behaviour on all finite
doubles).  Dimensions are integers `ℤ` as produced by image metadata.
-/

namespace Displate

/-- JavaScript `Math.round`: round half up, `⌊x + 1/2⌋`. -/
def jround (x : ℚ) : ℤ := ⌊x + 1/2⌋

/-- Server orientation decision: `const isVertical = metadata.height > metadata.width`. -/
def isVertical (w h : ℤ) : Bool := h > w

/-- Client preview orientation decision (App.jsx `calculateCropPreview`):
`const isVertical = image.naturalHeight > image.naturalWidth * 1.4`. -/
def clientIsVertical (w h : ℤ) : Bool := (h : ℚ) > (w : ℚ) * (7/5)

/-- Target output dimensions `(finalWidth, finalHeight)`:
vertical sources get `finalWidth = 2900, finalHeight = Math.round(finalWidth * 1.4)`,
horizontal sources get `finalHeight = 2900, finalWidth = Math.round(finalHeight * 1.4)`. -/
def finalDims (w h : ℤ) : ℤ × ℤ :=
  if isVertical w h then
    (2900, jround ((2900 : ℚ) * (7/5)))
  else
    (jround ((2900 : ℚ) * (7/5)), 2900)

/-- Crop dimensions `(cropWidth, cropHeight)` from the server handler:
vertical: if `width * 1.4 <= height` then full width, height rounded up from it,
else full height, width rounded down from it; symmetrically for horizontal. -/
def cropDims (w h : ℤ) : ℤ × ℤ :=
  if isVertical w h then
    if (w : ℚ) * (7/5) ≤ (h : ℚ) then
      (w, jround ((w : ℚ) * (7/5)))
    else
      (jround ((h : ℚ) / (7/5)), h)
  else
    if (h : ℚ) * (7/5) ≤ (w : ℚ) then
      (jround ((h : ℚ) * (7/5)), h)
    else
      (w, jround ((w : ℚ) / (7/5)))

/-- Focal-point-aware crop offset (first server variant, lines 94-98):
`left = Math.round(Math.max(0, Math.min(maxLeft, width * centerX - cropWidth / 2)))`
and symmetrically for `top`. -/
def cropOffset (w h cw ch : ℤ) (cx cy : ℚ) : ℤ × ℤ :=
  (jround (max 0 (min ((w - cw : ℤ) : ℚ) ((w : ℚ) * cx - (cw : ℚ) / 2))),
   jround (max 0 (min ((h - ch : ℤ) : ℚ) ((h : ℚ) * cy - (ch : ℚ) / 2))))

/-- Centered crop offset (second server variant, lines 246-247):
`left = Math.round((metadata.width - cropWidth) / 2)` and symmetrically for `top`. -/
def centeredOffset (w h cw ch : ℤ) : ℤ × ℤ :=
  (jround (((w : ℚ) - (cw : ℚ)) / 2), jround (((h : ℚ) - (ch : ℚ)) / 2))

/-- Focal coordinate parsing: `parseFloat(req.body.centerX) || 0.5`.
`none` stands for an absent or unparsable field (where `parseFloat` yields `NaN`,
which is falsy); a parsed value of `0` is also falsy and falls back to `0.5`. -/
def parseCenterCoord (v : Option ℚ) : ℚ :=
  match v with
  | none => 1/2
  | some x => if x = 0 then 1/2 else x

/-- Crop dimension derivation as the specification words it, section 4.1:
vertical: if `sourceWidth × 1.4 ≤ sourceHeight` then `cropWidth = sourceWidth`,
`cropHeight = round(cropWidth × 1.4)`, else `cropHeight = sourceHeight`,
`cropWidth = round(cropHeight / 1.4)`; horizontal symmetrically. -/
def specCropDims (w h : ℤ) : ℤ × ℤ :=
  if h > w then
    if (w : ℚ) * (7/5) ≤ (h : ℚ) then
      (w, jround ((w : ℚ) * (7/5)))
    else
      (jround ((h : ℚ) / (7/5)), h)
  else
    if (h : ℚ) * (7/5) ≤ (w : ℚ) then
      (jround ((h : ℚ) * (7/5)), h)
    else
      (w, jround ((w : ℚ) / (7/5)))

/-- Rounding a quantity to one decimal place, for the aspect-ratio check
`round(cropHeight/cropWidth, 1)` of spec section 8. -/
def roundTo1 (x : ℚ) : ℚ := ((jround (x * 10) : ℤ) : ℚ) / 10

/-- Body of an HTTP response from the POST /process-image handler:
either a JSON error object `{error: msg}` or raw JPEG bytes. -/
inductive RespBody where
  | jsonError (msg : String)
  | image (bytes : List ℕ)
deriving DecidableEq

/-- HTTP response shape observable from the handler: status code,
content type, and body. -/
structure Response where
  status : ℕ
  contentType : String
  body : RespBody
deriving DecidableEq

/-- Control flow of the POST /process-image handler: `file` is `req.file`
(the uploaded buffer, `none` when absent); `proc` abstracts the whole
try-block pipeline (sharp decode, extract, resize, JPEG encode), which
either throws with a message or yields output bytes.  Missing file returns
400 before processing; a thrown error is caught and mapped to 500 JSON;
success sends the JPEG with status 200. -/
def processImageHandler (file : Option (List ℕ))
    (proc : List ℕ → Except String (List ℕ)) : Response :=
  match file with
  | none => ⟨400, "application/json", .jsonError "No image file provided"⟩
  | some buf =>
    match proc buf with
    | .error msg =>
        ⟨500, "application/json", .jsonError ("Failed to process image: " ++ msg)⟩
    | .ok out => ⟨200, "image/jpeg", .image out⟩

/-- A pipeline that always succeeds with an empty output, used to
instantiate the handler contract at a concrete input. -/
def okProc : List ℕ → Except String (List ℕ) := fun _ => .ok []

-- Basic bounds for `jround`.

lemma le_jround {a : ℤ} {x : ℚ} (h : (a : ℚ) ≤ x + 1/2) : a ≤ jround x :=
  Int.le_floor.mpr h

lemma jround_le {a : ℤ} {x : ℚ} (h : x < (a : ℚ) + 1/2) : jround x ≤ a := by
  have h1 : jround x < a + 1 := by
    apply Int.floor_lt.mpr
    push_cast
    linarith
  omega

lemma jround_intCast (a : ℤ) : jround ((a : ℚ)) = a := by
  have h1 : a ≤ jround ((a : ℚ)) := le_jround (by linarith)
  have h2 : jround ((a : ℚ)) ≤ a := jround_le (by linarith)
  omega

lemma jround_sub_le (x : ℚ) : ((jround x : ℤ) : ℚ) ≤ x + 1/2 :=
  Int.floor_le _

lemma lt_jround_sub (x : ℚ) : x - 1/2 < ((jround x : ℤ) : ℚ) := by
  have := Int.sub_one_lt_floor (x + 1/2)
  unfold jround
  linarith

lemma jround_nonneg_le {x : ℚ} {m : ℤ} (h0 : 0 ≤ x) (hm : x ≤ (m : ℚ)) :
    0 ≤ jround x ∧ jround x ≤ m :=
  ⟨le_jround (by push_cast; linarith), jround_le (by linarith)⟩

-- The crop rectangle never exceeds the source dimensions.
lemma cropDims_le {w h : ℤ} (hw : 0 < w) (hh : 0 < h) :
    (cropDims w h).1 ≤ w ∧ (cropDims w h).2 ≤ h := by
  have hwq : (0 : ℚ) < (w : ℚ) := by exact_mod_cast hw
  have hhq : (0 : ℚ) < (h : ℚ) := by exact_mod_cast hh
  unfold cropDims isVertical
  split_ifs with hv hc hc
  · refine ⟨le_refl w, jround_le ?_⟩
    linarith
  · have hd : ((h : ℚ)) / (7/5) = 5 * (h : ℚ) / 7 := by ring
    rw [hd]
    have hch : (5 : ℚ) * (h : ℚ) / 7 < (w : ℚ) := by
      push_neg at hc
      linarith
    exact ⟨jround_le (by linarith), le_refl h⟩
  · exact ⟨jround_le (by linarith), le_refl h⟩
  · have hd : ((w : ℚ)) / (7/5) = 5 * (w : ℚ) / 7 := by ring
    rw [hd]
    have hcw : (5 : ℚ) * (w : ℚ) / 7 < (h : ℚ) := by
      push_neg at hc
      linarith
    exact ⟨le_refl w, jround_le (by linarith)⟩

-- The crop dimensions are positive whenever the source dimensions are.
lemma cropDims_pos {w h : ℤ} (hw : 0 < w) (hh : 0 < h) :
    1 ≤ (cropDims w h).1 ∧ 1 ≤ (cropDims w h).2 := by
  have hwq : (1 : ℚ) ≤ (w : ℚ) := by exact_mod_cast hw
  have hhq : (1 : ℚ) ≤ (h : ℚ) := by exact_mod_cast hh
  unfold cropDims isVertical
  split_ifs with hv hc hc
  · exact ⟨hw, le_jround (by linarith)⟩
  · have hd : ((h : ℚ)) / (7/5) = 5 * (h : ℚ) / 7 := by ring
    rw [hd]
    exact ⟨le_jround (by push_cast; linarith), hh⟩
  · exact ⟨le_jround (by linarith), hh⟩
  · have hd : ((w : ℚ)) / (7/5) = 5 * (w : ℚ) / 7 := by ring
    rw [hd]
    exact ⟨hw, le_jround (by push_cast; linarith)⟩

-- A clamped-and-rounded offset stays inside [0, m] for any focal value.
lemma clamp_offset_mem {m : ℤ} (hm : 0 ≤ m) (v : ℚ) :
    0 ≤ jround (max 0 (min ((m : ℤ) : ℚ) v)) ∧
      jround (max 0 (min ((m : ℤ) : ℚ) v)) ≤ m := by
  have hmq : (0 : ℚ) ≤ ((m : ℤ) : ℚ) := by exact_mod_cast hm
  refine jround_nonneg_le (le_max_left _ _) ?_
  have h1 : min ((m : ℤ) : ℚ) v ≤ ((m : ℤ) : ℚ) := min_le_left _ _
  exact max_le hmq h1

-- With the focal point at the exact centre, the clamp is a no-op and the
-- focal-aware offset coincides with the centred offset.
lemma cropOffset_half_eq_centered {w h cw ch : ℤ}
    (hcw : cw ≤ w) (hch : ch ≤ h) :
    cropOffset w h cw ch (1/2) (1/2) = centeredOffset w h cw ch := by
  unfold cropOffset centeredOffset
  have hwx : (w : ℚ) * (1/2) - (cw : ℚ) / 2 = ((w : ℚ) - (cw : ℚ)) / 2 := by ring
  have hhy : (h : ℚ) * (1/2) - (ch : ℚ) / 2 = ((h : ℚ) - (ch : ℚ)) / 2 := by ring
  have hwq : (cw : ℚ) ≤ (w : ℚ) := by exact_mod_cast hcw
  have hhq : (ch : ℚ) ≤ (h : ℚ) := by exact_mod_cast hch
  rw [hwx, hhy]
  have h1 : min ((w - cw : ℤ) : ℚ) (((w : ℚ) - (cw : ℚ)) / 2) =
      ((w : ℚ) - (cw : ℚ)) / 2 := by
    apply min_eq_right
    push_cast
    linarith
  have h2 : min ((h - ch : ℤ) : ℚ) (((h : ℚ) - (ch : ℚ)) / 2) =
      ((h : ℚ) - (ch : ℚ)) / 2 := by
    apply min_eq_right
    push_cast
    linarith
  rw [h1, h2, max_eq_right (by linarith), max_eq_right (by linarith)]

-- The client orientation test, restated over the integers.
lemma clientIsVertical_eq_decide (w h : ℤ) :
    clientIsVertical w h = decide (7 * w < 5 * h) := by
  unfold clientIsVertical
  rw [decide_eq_decide]
  constructor
  · intro hq
    have h5 : (7 : ℚ) * (w : ℚ) < 5 * (h : ℚ) := by
      rw [gt_iff_lt] at hq
      linarith
    exact_mod_cast h5
  · intro hz
    have h5 : (7 : ℚ) * (w : ℚ) < 5 * (h : ℚ) := by exact_mod_cast hz
    rw [gt_iff_lt]
    linarith

-- Focal point at the origin places the crop at the top-left corner.
lemma cropOffset_zero {w h cw ch : ℤ} (hcw0 : 0 ≤ cw) (hch0 : 0 ≤ ch)
    (hcw : cw ≤ w) (hch : ch ≤ h) : cropOffset w h cw ch 0 0 = (0, 0) := by
  unfold cropOffset
  have e1 : (w : ℚ) * 0 - (cw : ℚ) / 2 = -((cw : ℚ) / 2) := by ring
  have e2 : (h : ℚ) * 0 - (ch : ℚ) / 2 = -((ch : ℚ) / 2) := by ring
  rw [e1, e2]
  have m1 : min ((w - cw : ℤ) : ℚ) (-((cw : ℚ) / 2)) = -((cw : ℚ) / 2) := by
    apply min_eq_right
    push_cast
    have h1 : (cw : ℚ) ≤ (w : ℚ) := by exact_mod_cast hcw
    have h2 : (0 : ℚ) ≤ (cw : ℚ) := by exact_mod_cast hcw0
    linarith
  have m2 : min ((h - ch : ℤ) : ℚ) (-((ch : ℚ) / 2)) = -((ch : ℚ) / 2) := by
    apply min_eq_right
    push_cast
    have h1 : (ch : ℚ) ≤ (h : ℚ) := by exact_mod_cast hch
    have h2 : (0 : ℚ) ≤ (ch : ℚ) := by exact_mod_cast hch0
    linarith
  rw [m1, m2]
  have x1 : max (0 : ℚ) (-((cw : ℚ) / 2)) = 0 := by
    apply max_eq_left
    have h2 : (0 : ℚ) ≤ (cw : ℚ) := by exact_mod_cast hcw0
    linarith
  have x2 : max (0 : ℚ) (-((ch : ℚ) / 2)) = 0 := by
    apply max_eq_left
    have h2 : (0 : ℚ) ≤ (ch : ℚ) := by exact_mod_cast hch0
    linarith
  rw [x1, x2]
  have : jround 0 = 0 := by
    have := jround_intCast 0
    simpa using this
  rw [this]

-- Focal point at (1,1) places the crop at the bottom-right corner.
lemma cropOffset_one {w h cw ch : ℤ} (hcw0 : 0 ≤ cw) (hch0 : 0 ≤ ch)
    (hcw : cw ≤ w) (hch : ch ≤ h) :
    cropOffset w h cw ch 1 1 = (w - cw, h - ch) := by
  unfold cropOffset
  have m1 : min ((w - cw : ℤ) : ℚ) ((w : ℚ) * 1 - (cw : ℚ) / 2) =
      ((w - cw : ℤ) : ℚ) := by
    apply min_eq_left
    push_cast
    have h2 : (0 : ℚ) ≤ (cw : ℚ) := by exact_mod_cast hcw0
    linarith
  have m2 : min ((h - ch : ℤ) : ℚ) ((h : ℚ) * 1 - (ch : ℚ) / 2) =
      ((h - ch : ℤ) : ℚ) := by
    apply min_eq_left
    push_cast
    have h2 : (0 : ℚ) ≤ (ch : ℚ) := by exact_mod_cast hch0
    linarith
  rw [m1, m2]
  have x1 : max (0 : ℚ) ((w - cw : ℤ) : ℚ) = ((w - cw : ℤ) : ℚ) := by
    apply max_eq_right
    push_cast
    have h1 : (cw : ℚ) ≤ (w : ℚ) := by exact_mod_cast hcw
    linarith
  have x2 : max (0 : ℚ) ((h - ch : ℤ) : ℚ) = ((h - ch : ℤ) : ℚ) := by
    apply max_eq_right
    push_cast
    have h1 : (ch : ℚ) ≤ (h : ℚ) := by exact_mod_cast hch
    linarith
  rw [x1, x2, jround_intCast, jround_intCast]

lemma jround_eq_of {x : ℚ} {n : ℤ} (h1 : (n : ℚ) ≤ x + 1/2)
    (h2 : x + 1/2 < (n : ℚ) + 1) : jround x = n := by
  have ha : n ≤ jround x := le_jround h1
  have hb : jround x ≤ n := jround_le (by linarith)
  omega

lemma jround_2900 : jround ((2900 : ℚ) * (7/5)) = 4060 :=
  jround_eq_of (by norm_num) (by norm_num)

-- The target dimensions, fully evaluated.
lemma finalDims_eq (w h : ℤ) :
    finalDims w h = if h > w then ((2900 : ℤ), 4060) else (4060, 2900) := by
  unfold finalDims isVertical
  by_cases hv : h > w <;> simp [hv, jround_2900]

-- The focal-aware offset stays inside the source for every focal value.
lemma cropOffset_mem {w h cw ch : ℤ} (hcw : cw ≤ w) (hch : ch ≤ h)
    (cx cy : ℚ) :
    0 ≤ (cropOffset w h cw ch cx cy).1 ∧
      (cropOffset w h cw ch cx cy).1 + cw ≤ w ∧
      0 ≤ (cropOffset w h cw ch cx cy).2 ∧
      (cropOffset w h cw ch cx cy).2 + ch ≤ h := by
  have h1 := clamp_offset_mem (m := w - cw) (by omega)
    ((w : ℚ) * cx - (cw : ℚ) / 2)
  have h2 := clamp_offset_mem (m := h - ch) (by omega)
    ((h : ℚ) * cy - (ch : ℚ) / 2)
  unfold cropOffset
  exact ⟨h1.1, by have := h1.2; omega, h2.1, by have := h2.2; omega⟩

-- The centred offset stays inside the source.
lemma centeredOffset_mem {w h cw ch : ℤ} (hcw : cw ≤ w) (hch : ch ≤ h) :
    0 ≤ (centeredOffset w h cw ch).1 ∧
      (centeredOffset w h cw ch).1 + cw ≤ w ∧
      0 ≤ (centeredOffset w h cw ch).2 ∧
      (centeredOffset w h cw ch).2 + ch ≤ h := by
  have hwq : (cw : ℚ) ≤ (w : ℚ) := by exact_mod_cast hcw
  have hhq : (ch : ℚ) ≤ (h : ℚ) := by exact_mod_cast hch
  have h1 : 0 ≤ jround (((w : ℚ) - (cw : ℚ)) / 2) ∧
      jround (((w : ℚ) - (cw : ℚ)) / 2) ≤ w - cw := by
    refine jround_nonneg_le (by linarith) ?_
    push_cast
    linarith
  have h2 : 0 ≤ jround (((h : ℚ) - (ch : ℚ)) / 2) ∧
      jround (((h : ℚ) - (ch : ℚ)) / 2) ≤ h - ch := by
    refine jround_nonneg_le (by linarith) ?_
    push_cast
    linarith
  unfold centeredOffset
  exact ⟨h1.1, by have := h1.2; omega, h2.1, by have := h2.2; omega⟩

-- Concrete evaluation of the crop derivation at the spec's 1000×2000 example.
lemma cropDims_1000_2000 : cropDims 1000 2000 = (1000, 1400) := by
  have h1 : jround ((((1000 : ℤ)) : ℚ) * (7/5)) = 1400 :=
    jround_eq_of (by norm_num) (by norm_num)
  unfold cropDims
  rw [if_pos (show isVertical 1000 2000 = true from by decide),
    if_pos (show (((1000 : ℤ)) : ℚ) * (7/5) ≤ (((2000 : ℤ)) : ℚ) from by norm_num),
    h1]

-- Concrete evaluation at the degenerate 2×3 source.
lemma cropDims_2_3 : cropDims 2 3 = (2, 3) := by
  have h1 : jround ((((2 : ℤ)) : ℚ) * (7/5)) = 3 :=
    jround_eq_of (by norm_num) (by norm_num)
  unfold cropDims
  rw [if_pos (show isVertical 2 3 = true from by decide),
    if_pos (show (((2 : ℤ)) : ℚ) * (7/5) ≤ (((3 : ℤ)) : ℚ) from by norm_num),
    h1]

/-- C1: for every source with positive integer dimensions the handler derives
the crop dimensions exactly as the specification's vertical/horizontal case
analysis states, and for the 1000×2000 example the result is
cropWidth 1000, cropHeight 1400. -/
theorem crop_derivation_matches_spec :
    (∀ w h : ℤ, 0 < w → 0 < h → cropDims w h = specCropDims w h) ∧
      cropDims 1000 2000 = (1000, 1400) := by
  refine ⟨?_, cropDims_1000_2000⟩
  intro w h _ _
  unfold cropDims specCropDims isVertical
  by_cases hv : h > w <;> simp [hv]

theorem crop_derivation_matches_spec_witness :
    cropDims 1000 2000 = specCropDims 1000 2000 ∧
      cropDims 1000 2000 = (1000, 1400) :=
  ⟨crop_derivation_matches_spec.1 1000 2000 (by decide) (by decide),
    crop_derivation_matches_spec.2⟩

/-- C2: for positive source dimensions and any focal point in the unit
square, both the focal-aware and the centred crop rectangle lie fully
inside the source: nonnegative offsets, and offset plus crop extent at most
the source extent on each axis. -/
theorem crop_rect_within_source_bounds (w h : ℤ) (cx cy : ℚ)
    (hw : 0 < w) (hh : 0 < h) (hcx0 : 0 ≤ cx) (hcx1 : cx ≤ 1)
    (hcy0 : 0 ≤ cy) (hcy1 : cy ≤ 1) :
    0 ≤ (cropOffset w h (cropDims w h).1 (cropDims w h).2 cx cy).1 ∧
    0 ≤ (cropOffset w h (cropDims w h).1 (cropDims w h).2 cx cy).2 ∧
    (cropOffset w h (cropDims w h).1 (cropDims w h).2 cx cy).1 +
        (cropDims w h).1 ≤ w ∧
    (cropOffset w h (cropDims w h).1 (cropDims w h).2 cx cy).2 +
        (cropDims w h).2 ≤ h ∧
    0 ≤ (centeredOffset w h (cropDims w h).1 (cropDims w h).2).1 ∧
    0 ≤ (centeredOffset w h (cropDims w h).1 (cropDims w h).2).2 ∧
    (centeredOffset w h (cropDims w h).1 (cropDims w h).2).1 +
        (cropDims w h).1 ≤ w ∧
    (centeredOffset w h (cropDims w h).1 (cropDims w h).2).2 +
        (cropDims w h).2 ≤ h := by
  obtain ⟨hcw, hch⟩ := cropDims_le hw hh
  obtain ⟨f1, f2, f3, f4⟩ := cropOffset_mem hcw hch cx cy
  obtain ⟨c1, c2, c3, c4⟩ := centeredOffset_mem hcw hch
  exact ⟨f1, f3, f2, f4, c1, c3, c2, c4⟩

theorem crop_rect_within_source_bounds_witness :
    0 ≤ (cropOffset 1000 2000 (cropDims 1000 2000).1 (cropDims 1000 2000).2
        0 1).1 ∧
    0 ≤ (cropOffset 1000 2000 (cropDims 1000 2000).1 (cropDims 1000 2000).2
        0 1).2 ∧
    (cropOffset 1000 2000 (cropDims 1000 2000).1 (cropDims 1000 2000).2
        0 1).1 + (cropDims 1000 2000).1 ≤ 1000 ∧
    (cropOffset 1000 2000 (cropDims 1000 2000).1 (cropDims 1000 2000).2
        0 1).2 + (cropDims 1000 2000).2 ≤ 2000 ∧
    0 ≤ (centeredOffset 1000 2000 (cropDims 1000 2000).1
        (cropDims 1000 2000).2).1 ∧
    0 ≤ (centeredOffset 1000 2000 (cropDims 1000 2000).1
        (cropDims 1000 2000).2).2 ∧
    (centeredOffset 1000 2000 (cropDims 1000 2000).1
        (cropDims 1000 2000).2).1 + (cropDims 1000 2000).1 ≤ 1000 ∧
    (centeredOffset 1000 2000 (cropDims 1000 2000).1
        (cropDims 1000 2000).2).2 + (cropDims 1000 2000).2 ≤ 2000 :=
  crop_rect_within_source_bounds 1000 2000 0 1 (by decide) (by decide)
    (le_refl 0) zero_le_one zero_le_one (le_refl 1)

/-- C3 counterexample: for the vertical source 2×3 the crop is 2×3, whose
aspect ratio 3/2 rounds at one decimal to 1.5, not 1.4 — so the claim's
`round(cropHeight/cropWidth, 1) == 1.4` fails for small sources. -/
theorem crop_aspect_one_decimal_cex :
    cropDims 2 3 = (2, 3) ∧ isVertical 2 3 = true ∧
      roundTo1 ((3 : ℚ) / 2) ≠ 7/5 := by
  refine ⟨cropDims_2_3, by decide, ?_⟩
  have h15 : jround ((3 : ℚ) / 2 * 10) = 15 :=
    jround_eq_of (by norm_num) (by norm_num)
  unfold roundTo1
  rw [h15]
  norm_num

/-- C3 amended: for every source with positive dimensions the crop
dimensions respect the 1:1.4 ratio within the rounding tolerance of one
pixel: `|cropHeight - 1.4*cropWidth| ≤ 1` when vertical and
`|cropWidth - 1.4*cropHeight| ≤ 1` when horizontal. -/
theorem crop_aspect_within_one_pixel (w h : ℤ) (hw : 0 < w) (hh : 0 < h) :
    (isVertical w h = true →
      |((cropDims w h).2 : ℚ) - (7/5) * ((cropDims w h).1 : ℚ)| ≤ 1) ∧
    (isVertical w h = false →
      |((cropDims w h).1 : ℚ) - (7/5) * ((cropDims w h).2 : ℚ)| ≤ 1) := by
  unfold cropDims isVertical
  split_ifs with hv hc hc
  · refine ⟨fun _ => ?_, fun hf => by simp [hv] at hf⟩
    have ha := jround_sub_le ((w : ℚ) * (7/5))
    have hb := lt_jround_sub ((w : ℚ) * (7/5))
    rw [abs_le]
    constructor <;> simp only [Prod.fst, Prod.snd] <;> linarith
  · refine ⟨fun _ => ?_, fun hf => by simp [hv] at hf⟩
    have hmul : (7/5 : ℚ) * ((h : ℚ) / (7/5)) = (h : ℚ) := by ring
    have ha := jround_sub_le (((h : ℚ)) / (7/5))
    have hb := lt_jround_sub (((h : ℚ)) / (7/5))
    rw [abs_le]
    constructor <;> simp only [Prod.fst, Prod.snd] <;> linarith
  · refine ⟨fun ht' => by simp [hv] at ht', fun _ => ?_⟩
    have ha := jround_sub_le ((h : ℚ) * (7/5))
    have hb := lt_jround_sub ((h : ℚ) * (7/5))
    rw [abs_le]
    constructor <;> simp only [Prod.fst, Prod.snd] <;> linarith
  · refine ⟨fun ht' => by simp [hv] at ht', fun _ => ?_⟩
    have hmul : (7/5 : ℚ) * ((w : ℚ) / (7/5)) = (w : ℚ) := by ring
    have ha := jround_sub_le (((w : ℚ)) / (7/5))
    have hb := lt_jround_sub (((w : ℚ)) / (7/5))
    rw [abs_le]
    constructor <;> simp only [Prod.fst, Prod.snd] <;> linarith

theorem crop_aspect_within_one_pixel_witness :
    (Displate.isVertical 1000 2000 = true →
      |((cropDims 1000 2000).2 : ℚ) - (7/5) * ((cropDims 1000 2000).1 : ℚ)|
        ≤ 1) ∧
    (Displate.isVertical 1000 2000 = false →
      |((cropDims 1000 2000).1 : ℚ) - (7/5) * ((cropDims 1000 2000).2 : ℚ)|
        ≤ 1) :=
  crop_aspect_within_one_pixel 1000 2000 (by decide) (by decide)

/-- C4: the target output size is fixed per orientation — (2900, 4060) for
vertical sources and (4060, 2900) for horizontal ones — and the target
long:short edge ratio 4060/2900 is exactly 1.4. -/
theorem target_size_fixed_per_orientation :
    (∀ w h : ℤ, finalDims w h =
      if h > w then ((2900 : ℤ), 4060) else (4060, 2900)) ∧
      (4060 : ℚ) / 2900 = 7/5 :=
  ⟨finalDims_eq, by norm_num⟩

/-- C5: with the default focal point (0.5, 0.5) the focal-aware placement
coincides exactly with the centred placement of the second server variant. -/
theorem focal_default_equals_centered (w h : ℤ) (hw : 0 < w) (hh : 0 < h) :
    cropOffset w h (cropDims w h).1 (cropDims w h).2 (1/2) (1/2) =
      centeredOffset w h (cropDims w h).1 (cropDims w h).2 := by
  obtain ⟨hcw, hch⟩ := cropDims_le hw hh
  exact cropOffset_half_eq_centered hcw hch

theorem focal_default_equals_centered_witness :
    cropOffset 1000 2000 (cropDims 1000 2000).1 (cropDims 1000 2000).2
        (1/2) (1/2) =
      centeredOffset 1000 2000 (cropDims 1000 2000).1 (cropDims 1000 2000).2 :=
  focal_default_equals_centered 1000 2000 (by decide) (by decide)

/-- C6: focal point (0,0) places the crop at (0,0), focal point (1,1)
places it at (sourceWidth − cropWidth, sourceHeight − cropHeight), and for
every focal value whatsoever the clamping keeps the rectangle inside the
source bounds. -/
theorem focal_edge_and_clamped_placement (w h : ℤ) (hw : 0 < w)
    (hh : 0 < h) :
    cropOffset w h (cropDims w h).1 (cropDims w h).2 0 0 = (0, 0) ∧
    cropOffset w h (cropDims w h).1 (cropDims w h).2 1 1 =
      (w - (cropDims w h).1, h - (cropDims w h).2) ∧
    ∀ cx cy : ℚ,
      0 ≤ (cropOffset w h (cropDims w h).1 (cropDims w h).2 cx cy).1 ∧
      (cropOffset w h (cropDims w h).1 (cropDims w h).2 cx cy).1 +
          (cropDims w h).1 ≤ w ∧
      0 ≤ (cropOffset w h (cropDims w h).1 (cropDims w h).2 cx cy).2 ∧
      (cropOffset w h (cropDims w h).1 (cropDims w h).2 cx cy).2 +
          (cropDims w h).2 ≤ h := by
  obtain ⟨hcw, hch⟩ := cropDims_le hw hh
  obtain ⟨hp1, hp2⟩ := cropDims_pos hw hh
  exact ⟨cropOffset_zero (by omega) (by omega) hcw hch,
    cropOffset_one (by omega) (by omega) hcw hch,
    fun cx cy => cropOffset_mem hcw hch cx cy⟩

theorem focal_edge_and_clamped_placement_witness :
    cropOffset 1000 2000 (cropDims 1000 2000).1 (cropDims 1000 2000).2 0 0 =
        (0, 0) ∧
      cropOffset 1000 2000 (cropDims 1000 2000).1 (cropDims 1000 2000).2 1 1 =
        (1000 - (cropDims 1000 2000).1, 2000 - (cropDims 1000 2000).2) :=
  ⟨(focal_edge_and_clamped_placement 1000 2000 (by decide) (by decide)).1,
    (focal_edge_and_clamped_placement 1000 2000 (by decide) (by decide)).2.1⟩

/-- C7: for every source with both dimensions at least 1, all computed
dimensions are positive — cropWidth, cropHeight, finalWidth and finalHeight
are each at least 1, so the guarded GeometryError condition is unreachable. -/
theorem computed_dimensions_positive (w h : ℤ) (hw : 1 ≤ w) (hh : 1 ≤ h) :
    1 ≤ (cropDims w h).1 ∧ 1 ≤ (cropDims w h).2 ∧
      1 ≤ (finalDims w h).1 ∧ 1 ≤ (finalDims w h).2 := by
  obtain ⟨h1, h2⟩ := cropDims_pos hw hh
  refine ⟨h1, h2, ?_, ?_⟩ <;>
    · rw [finalDims_eq]
      split_ifs <;> decide

theorem computed_dimensions_positive_witness :
    1 ≤ (cropDims 1000 2000).1 ∧ 1 ≤ (cropDims 1000 2000).2 ∧
      1 ≤ (finalDims 1000 2000).1 ∧ 1 ≤ (finalDims 1000 2000).2 :=
  computed_dimensions_positive 1000 2000 (by decide) (by decide)

/-- C8: the handler answers 400 with the missing-file error body exactly
when no image file is present; a processing error yields 500 with a JSON
error body carrying the descriptive message; success yields 200 with
content type image/jpeg; and 200 occurs exactly on the success path. -/
theorem handler_response_contract (file : Option (List ℕ))
    (proc : List ℕ → Except String (List ℕ)) :
    ((processImageHandler file proc).status = 400 ↔ file = none) ∧
    (file = none →
      processImageHandler file proc =
        ⟨400, "application/json", .jsonError "No image file provided"⟩) ∧
    (∀ buf msg, file = some buf → proc buf = .error msg →
      processImageHandler file proc =
        ⟨500, "application/json",
          .jsonError ("Failed to process image: " ++ msg)⟩) ∧
    (∀ buf out, file = some buf → proc buf = .ok out →
      processImageHandler file proc = ⟨200, "image/jpeg", .image out⟩) ∧
    ((processImageHandler file proc).status = 200 ↔
      ∃ buf out, file = some buf ∧ proc buf = .ok out) := by
  rcases file with _ | buf
  · simp [processImageHandler]
  · rcases hp : proc buf with msg | out
    · simp [processImageHandler, hp]
      constructor
      · intro b m hb hm
        subst hb
        rw [hp] at hm
        cases hm
        rfl
      · intro b o hb hm
        subst hb
        rw [hp] at hm
        cases hm
    · simp [processImageHandler, hp]
      constructor
      · intro b m hb hm
        subst hb
        rw [hp] at hm
        cases hm
      · intro b o hb hm
        subst hb
        rw [hp] at hm
        cases hm
        rfl

theorem handler_response_contract_witness :
    (processImageHandler none okProc).status = 400 :=
  (handler_response_contract none okProc).1.mpr rfl

/-- C9 counterexample: for a 100×120 source the server treats the image as
vertical (height > width) while the client preview does not
(height is not greater than width × 1.4), so the two orientation decisions
are not the same. -/
theorem orientation_client_server_mismatch :
    isVertical 100 120 = true ∧ clientIsVertical 100 120 = false := by
  refine ⟨by decide, ?_⟩
  rw [clientIsVertical_eq_decide]
  decide

/-- C9 amended: the server decides vertical by height > width while the
client preview decides it by height > width × 1.4; for positive dimensions
the two decisions differ exactly when width < height ≤ 1.4 × width. -/
theorem orientation_decision_comparison (w h : ℤ) (hw : 0 < w)
    (hh : 0 < h) :
    isVertical w h ≠ clientIsVertical w h ↔ w < h ∧ 5 * h ≤ 7 * w := by
  rw [clientIsVertical_eq_decide]
  unfold isVertical
  by_cases h1 : h > w <;> by_cases h2 : 7 * w < 5 * h <;>
    simp [h1, h2] <;> omega

theorem orientation_decision_comparison_witness :
    isVertical 100 120 ≠ clientIsVertical 100 120 :=
  (orientation_decision_comparison 100 120 (by decide) (by decide)).mpr
    ⟨by decide, by decide⟩

/-- C10: a centerX or centerY field parsing to 0 falls back to the default
0.5 because 0 is falsy in the `parseFloat(...) || 0.5` expression, so the
crop is placed as if the focal point were the centre: with both fields 0
the offset equals the centred placement. -/
theorem center_zero_falls_back_to_centered (w h : ℤ) (hw : 0 < w)
    (hh : 0 < h) :
    parseCenterCoord (some 0) = 1/2 ∧
    cropOffset w h (cropDims w h).1 (cropDims w h).2
        (parseCenterCoord (some 0)) (parseCenterCoord (some 0)) =
      centeredOffset w h (cropDims w h).1 (cropDims w h).2 := by
  obtain ⟨hcw, hch⟩ := cropDims_le hw hh
  have hp : parseCenterCoord (some 0) = 1/2 := by
    unfold parseCenterCoord
    simp
  refine ⟨hp, ?_⟩
  rw [hp]
  exact cropOffset_half_eq_centered hcw hch

theorem center_zero_falls_back_to_centered_witness :
    parseCenterCoord (some 0) = 1/2 ∧
    cropOffset 1000 2000 (cropDims 1000 2000).1 (cropDims 1000 2000).2
        (parseCenterCoord (some 0)) (parseCenterCoord (some 0)) =
      centeredOffset 1000 2000 (cropDims 1000 2000).1 (cropDims 1000 2000).2 :=
  center_zero_falls_back_to_centered 1000 2000 (by decide) (by decide)

end Displate
